import Mathlib

/-!
Verification of the linkding-mcp protocol adapter.

The repository contains two components:
* `pkg/linkding/client.go` — a typed REST client for the Linkding API
  (embedded below in namespace `Linkding`);
* two protocol adapters:
  - the canonical one built on the official MCP Go SDK
    (`internal/server`, functions `NewMCP`, `handleSearchBookmarks`,
    `handleCreateBookmark`, `handleGetTags`) — namespace `Server`;
  - a legacy hand-rolled JSON-RPC adapter (`internal/mcp`, functions
    `handleRequest`, `handleToolsList`, `handleToolsCall`,
    `handleSearchBookmarks`, `handleCreateBookmark`) — namespace `MCP`.

Go machine integers are modelled as `Int` (no handler or client code can
overflow: values are only compared and printed).  Effectful code (the
single HTTP round-trip each handler performs) is modelled by passing the
remote outcome as an explicit argument, together with a companion
definition recording which Client call (if any) the handler issues.
-/

namespace Linkding

/-- Bookmark as decoded from the Linkding API (`pkg/linkding/client.go`,
type `Bookmark`).  Timestamps are kept as opaque strings. -/
structure Bookmark where
  id : Int
  url : String
  title : String
  description : String
  notes : String
  webArchiveSnapshotURL : String
  faviconURL : String
  previewImageURL : String
  isArchived : Bool
  unread : Bool
  shared : Bool
  tagNames : List String
  dateAdded : String
  dateModified : String
  deriving Repr, DecidableEq

/-- Tag as decoded from the Linkding API (type `Tag`). -/
structure Tag where
  id : Int
  name : String
  dateAdded : String
  deriving Repr, DecidableEq

/-- Paginated bookmark list response (type `BookmarkResponse`). -/
structure BookmarkResponse where
  count : Int
  next : Option String
  previous : Option String
  results : List Bookmark
  deriving Repr, DecidableEq

/-- Paginated tag list response (type `TagResponse`). -/
structure TagResponse where
  count : Int
  next : Option String
  previous : Option String
  results : List Tag
  deriving Repr, DecidableEq

/-- Payload for creating a bookmark (type `CreateBookmarkRequest`). -/
structure CreateBookmarkRequest where
  url : String
  title : String
  description : String
  notes : String
  tagNames : List String
  unread : Bool
  shared : Bool
  isArchived : Bool
  disableScraping : Bool
  deriving Repr, DecidableEq

/-- Outcome of one HTTP round-trip as seen by a Client method: either the
transport layer failed (`http.Client.Do` returned an error), or a response
with a status code arrived and its body either decoded to a value of the
expected type or failed to decode. -/
inductive RemoteOutcome (α : Type) where
  | transportFailure (msg : String)
  | httpResponse (status : Int) (body : Except String α)

/-- Query parameters built by `GetBookmarks` (client.go lines 139-156):
`limit` and `offset` are included only when strictly positive, `q` only
when non-empty.  (Go's `url.Values.Encode` sorts keys; only membership
matters here, so insertion order is kept.) -/
def getBookmarksParams (limit offset : Int) (query : String) : List (String × String) :=
  (if limit > 0 then [("limit", toString limit)] else [])
    ++ (if offset > 0 then [("offset", toString offset)] else [])
    ++ (if query ≠ "" then [("q", query)] else [])

/-- Query parameters built by `GetTags` (client.go lines 304-317). -/
def getTagsParams (limit offset : Int) : List (String × String) :=
  (if limit > 0 then [("limit", toString limit)] else [])
    ++ (if offset > 0 then [("offset", toString offset)] else [])

/-- Result computation of `Client.GetBookmarks` (client.go lines 158-176)
from the remote outcome: transport errors propagate, a status other than
200 (`http.StatusOK`) is `"API request failed with status <code>"`, and a
body that fails to decode is `"failed to decode response: <err>"`. -/
def GetBookmarks (outcome : RemoteOutcome BookmarkResponse) : Except String BookmarkResponse :=
  match outcome with
  | .transportFailure m => .error m
  | .httpResponse status body =>
    if status ≠ 200 then .error ("API request failed with status " ++ toString status)
    else
      match body with
      | .error m => .error ("failed to decode response: " ++ m)
      | .ok r => .ok r

/-- Result computation of `Client.CreateBookmark` (client.go lines
182-202): succeeds only on status 201 (`http.StatusCreated`). -/
def CreateBookmark (outcome : RemoteOutcome Bookmark) : Except String Bookmark :=
  match outcome with
  | .transportFailure m => .error m
  | .httpResponse status body =>
    if status ≠ 201 then .error ("API request failed with status " ++ toString status)
    else
      match body with
      | .error m => .error ("failed to decode response: " ++ m)
      | .ok r => .ok r

/-- Result computation of `Client.GetTags` (client.go lines 319-338):
succeeds only on status 200. -/
def GetTags (outcome : RemoteOutcome TagResponse) : Except String TagResponse :=
  match outcome with
  | .transportFailure m => .error m
  | .httpResponse status body =>
    if status ≠ 200 then .error ("API request failed with status " ++ toString status)
    else
      match body with
      | .error m => .error ("failed to decode response: " ++ m)
      | .ok r => .ok r

end Linkding

namespace Server

open Linkding

/-- Input of the search_bookmarks tool (`internal/server/types.go`,
type `SearchBookmarksArgs`).  A field omitted by the caller decodes to the
Go zero value: `""` for `query`, `0` for `limit`. -/
structure SearchBookmarksArgs where
  query : String
  limit : Int
  deriving Repr, DecidableEq

/-- Input of the get_tags tool (type `GetTagsArgs`). -/
structure GetTagsArgs where
  limit : Int
  deriving Repr, DecidableEq

/-- Input of the create_bookmark tool (type `CreateBookmarkArgs`). -/
structure CreateBookmarkArgs where
  url : String
  title : String
  description : String
  tags : List String
  deriving Repr, DecidableEq

/-- Structured output of create_bookmark (type `BookmarkResult`). -/
structure BookmarkResult where
  id : Int
  url : String
  title : String
  description : String
  tags : List String
  success : Bool
  message : String
  deriving Repr, DecidableEq

/-- Go zero value of `BookmarkResult`, returned on the error paths of
`handleCreateBookmark` (`BookmarkResult{}`). -/
def emptyBookmarkResult : BookmarkResult :=
  ⟨0, "", "", "", [], false, ""⟩

/-- One text content block (`mcpsdk.TextContent`).  Every handler in this
repository emits exactly one text block. -/
structure TextContent where
  text : String
  deriving Repr, DecidableEq

/-- Tool call result (`mcpsdk.CallToolResult`): content blocks plus the
business-error flag.  There is no numeric error code in this type; the Go
handlers always return a nil protocol error alongside it. -/
structure CallToolResult where
  content : List TextContent
  isError : Bool
  deriving Repr, DecidableEq

/-- Rendering of a Go `[]string` by `fmt` verb `%v`: the elements joined
by single spaces, enclosed in square brackets. -/
def goStringSliceV (xs : List String) : String :=
  "[" ++ String.intercalate " " xs ++ "]"

/-- Limit actually used by `handleSearchBookmarks` (server.go lines
33-36): a zero limit is replaced by 20, anything else is kept. -/
def searchEffectiveLimit (limit : Int) : Int :=
  if limit = 0 then 20 else limit

/-- Limit actually used by `handleGetTags` (server.go lines 136-139):
a zero limit is replaced by 50. -/
def tagsEffectiveLimit (limit : Int) : Int :=
  if limit = 0 then 50 else limit

/-- Arguments of a `Client.GetBookmarks` call. -/
structure GetBookmarksCall where
  limit : Int
  offset : Int
  query : String
  deriving Repr, DecidableEq

/-- Arguments of a `Client.GetTags` call. -/
structure GetTagsCall where
  limit : Int
  offset : Int
  deriving Repr, DecidableEq

/-- The single Client call issued by `handleSearchBookmarks`:
`GetBookmarks(ctx, limit, 0, args.Query)` with the defaulted limit
(server.go line 38). -/
def searchBookmarksClientCall (args : SearchBookmarksArgs) : GetBookmarksCall :=
  ⟨searchEffectiveLimit args.limit, 0, args.query⟩

/-- The single Client call issued by `handleGetTags`:
`GetTags(ctx, limit, 0)` with the defaulted limit (server.go line 141). -/
def getTagsClientCall (args : GetTagsArgs) : GetTagsCall :=
  ⟨tagsEffectiveLimit args.limit, 0⟩

/-- Per-bookmark block accumulated by the loop of `handleSearchBookmarks`
(server.go lines 51-63): title/URL lines, a Description line only when
the description is non-empty, a Tags line only when the tag list is
non-empty, then a blank line. -/
def bookmarkBlock (b : Bookmark) : String :=
  "• **" ++ b.title ++ "**\n  URL: " ++ b.url ++ "\n"
    ++ (if b.description ≠ "" then "  Description: " ++ b.description ++ "\n" else "")
    ++ (if b.tagNames.length > 0 then "  Tags: " ++ goStringSliceV b.tagNames ++ "\n" else "")
    ++ "\n"

/-- Text built by `handleSearchBookmarks` on success (server.go lines
50-63): the count header, then the per-bookmark blocks accumulated
left-to-right exactly as the Go loop appends them. -/
def formatBookmarks (bs : List Bookmark) : String :=
  bs.foldl (fun acc b => acc ++ bookmarkBlock b)
    ("Found " ++ toString bs.length ++ " bookmarks:\n\n")

/-- Text built by the success path of `handleGetTags` (server.go lines
163-166); the tag id is rendered with `strconv.Itoa`. -/
def formatTags (ts : List Tag) : String :=
  ts.foldl (fun acc t => acc ++ ("• " ++ t.name ++ " (ID: " ++ toString t.id ++ ")\n"))
    ("Found " ++ toString ts.length ++ " tags:\n\n")

/-- Text built by the success path of `handleCreateBookmark` (server.go
lines 105-114): confirmation banner, title/URL/ID block, then optional
Description and Tags lines, with no trailing blank line. -/
def createBookmarkText (b : Bookmark) : String :=
  "✅ Bookmark created successfully!\n\n• **" ++ b.title ++ "**\n  URL: " ++ b.url
      ++ "\n  ID: " ++ toString b.id
    ++ (if b.description ≠ "" then "\n  Description: " ++ b.description else "")
    ++ (if b.tagNames.length > 0 then "\n  Tags: " ++ goStringSliceV b.tagNames else "")

/-- `handleSearchBookmarks` (server.go lines 32-72) after the Client call
whose arguments are `searchBookmarksClientCall args`: a Client error
becomes a business-error result, success becomes the formatted list. -/
def handleSearchBookmarks (args : SearchBookmarksArgs)
    (clientResult : Except String BookmarkResponse) : CallToolResult :=
  match clientResult with
  | .error e => ⟨[⟨"Failed to search bookmarks: " ++ e⟩], true⟩
  | .ok resp => ⟨[⟨formatBookmarks resp.results⟩], false⟩

/-- `handleGetTags` (server.go lines 135-175) after the Client call whose
arguments are `getTagsClientCall args`: Client errors become business
errors, an empty result list becomes the literal `"No tags found"`, and a
non-empty list becomes the formatted tag list. -/
def handleGetTags (args : GetTagsArgs)
    (clientResult : Except String TagResponse) : CallToolResult :=
  match clientResult with
  | .error e => ⟨[⟨"Failed to get tags: " ++ e⟩], true⟩
  | .ok resp =>
    if resp.results.length = 0 then ⟨[⟨"No tags found"⟩], false⟩
    else ⟨[⟨formatTags resp.results⟩], false⟩

/-- The Client call issued by `handleCreateBookmark` (server.go lines
86-93): `none` when the URL argument is empty (the handler returns before
reaching the Client), otherwise the `CreateBookmarkRequest` built from
the arguments (notes/unread/shared/archived/disable-scraping stay at
their zero values). -/
def createBookmarkClientCall (args : CreateBookmarkArgs) : Option CreateBookmarkRequest :=
  if args.url = "" then none
  else some ⟨args.url, args.title, args.description, "", args.tags, false, false, false, false⟩

/-- `handleCreateBookmark` (server.go lines 74-133): an empty URL is the
business error `"URL is required"` before any Client interaction; a Client
error is a business error; success yields the confirmation text plus the
structured `BookmarkResult` mirroring the created bookmark. -/
def handleCreateBookmark (args : CreateBookmarkArgs)
    (clientResult : Except String Bookmark) : CallToolResult × BookmarkResult :=
  if args.url = "" then
    (⟨[⟨"URL is required"⟩], true⟩, emptyBookmarkResult)
  else
    match clientResult with
    | .error e => (⟨[⟨"Failed to create bookmark: " ++ e⟩], true⟩, emptyBookmarkResult)
    | .ok b =>
      (⟨[⟨createBookmarkText b⟩], false⟩,
        ⟨b.id, b.url, b.title, b.description, b.tagNames, true, "Bookmark created successfully"⟩)

/-- The tool catalog registered by `NewMCP` (server.go lines 178-212):
the three `mcpsdk.AddTool` calls, in registration order, with their
names and descriptions (input schemas are derived by the SDK from the
typed argument structures). -/
def newMCPTools : List (String × String) :=
  [("search_bookmarks", "Search bookmarks in Linkding"),
    ("create_bookmark", "Create a new bookmark in Linkding"),
    ("get_tags", "Get all available tags from Linkding")]

end Server

namespace MCP

open Linkding

/-- Go `any` values as they arrive from `encoding/json`: JSON numbers
decode to `float64`; every number any handler consumes is converted with
`int(l)`, and only integral values are relevant to the adapter's
behavior, so numbers are carried as `Int`. -/
inductive GoVal where
  | nullv
  | boolv (b : Bool)
  | num (n : Int)
  | str (s : String)
  | arr (xs : List GoVal)
  | obj (fields : List (String × GoVal))

/-- Tool descriptor as emitted by the legacy `handleToolsList`: name,
description and the literal input schema. -/
structure ToolDescriptor where
  name : String
  description : String
  inputSchema : GoVal

/-- Schema literal of search_bookmarks in the legacy `handleToolsList`
(`internal/mcp`, types.go lines 163-180). -/
def searchBookmarksDescriptor : ToolDescriptor :=
  { name := "search_bookmarks"
    description := "Search bookmarks in Linkding"
    inputSchema := GoVal.obj
      [("type", GoVal.str "object"),
        ("properties", GoVal.obj
          [("query", GoVal.obj
            [("type", GoVal.str "string"),
              ("description", GoVal.str "Search query")]),
            ("limit", GoVal.obj
              [("type", GoVal.str "number"),
                ("description", GoVal.str "Maximum number of results (default: 20)"),
                ("default", GoVal.num 20)])])] }

/-- Schema literal of create_bookmark in the legacy `handleToolsList`
(types.go lines 181-207). -/
def createBookmarkDescriptor : ToolDescriptor :=
  { name := "create_bookmark"
    description := "Create a new bookmark"
    inputSchema := GoVal.obj
      [("type", GoVal.str "object"),
        ("properties", GoVal.obj
          [("url", GoVal.obj
            [("type", GoVal.str "string"),
              ("description", GoVal.str "URL to bookmark")]),
            ("title", GoVal.obj
              [("type", GoVal.str "string"),
                ("description", GoVal.str "Bookmark title")]),
            ("description", GoVal.obj
              [("type", GoVal.str "string"),
                ("description", GoVal.str "Bookmark description")]),
            ("tags", GoVal.obj
              [("type", GoVal.str "array"),
                ("items", GoVal.obj [("type", GoVal.str "string")]),
                ("description", GoVal.str "List of tags")])]),
        ("required", GoVal.arr [GoVal.str "url"])] }

/-- The tool list returned by the legacy `handleToolsList` (types.go
lines 161-217): exactly these two descriptors, in this order. -/
def legacyTools : List ToolDescriptor :=
  [searchBookmarksDescriptor, createBookmarkDescriptor]

/-- JSON-RPC error object (type `MCPError`). -/
structure MCPError where
  code : Int
  message : String
  deriving Repr, DecidableEq

/-- One content block of a legacy tool result (type `ToolContent`). -/
structure ToolContent where
  type : String
  text : String
  deriving Repr, DecidableEq

/-- Legacy tool result (type `ToolResult`). -/
structure ToolResult where
  content : List ToolContent
  isError : Bool
  deriving Repr, DecidableEq

/-- The `Result` field of a legacy response is Go `any`; the shapes this
adapter actually produces are a tools/list payload or a tool result. -/
inductive MCPPayload where
  | toolsList (tools : List ToolDescriptor)
  | toolCall (r : ToolResult)

/-- JSON-RPC response envelope (type `MCPResponse`). -/
structure MCPResponse where
  jsonrpc : String
  id : GoVal
  result : Option MCPPayload
  error : Option MCPError

/-- Legacy `handleToolsList` (types.go lines 161-217). -/
def legacyHandleToolsList (id : GoVal) : MCPResponse :=
  { jsonrpc := "2.0", id := id
    result := some (MCPPayload.toolsList legacyTools), error := none }

/-- Parsed params of a legacy tools/call request (type
`ToolCallParams`); the argument map is keyed by distinct strings. -/
structure ToolCallParams where
  name : String
  arguments : List (String × GoVal)

/-- Lookup in a decoded Go `map[string]any`. -/
def lookupArg (args : List (String × GoVal)) (key : String) : Option GoVal :=
  List.lookup key args

/-- Legacy query extraction (types.go line 277):
`query, _ := args["query"].(string)` — empty string unless the value is
present and is a string. -/
def legacyQueryArg (args : List (String × GoVal)) : String :=
  match lookupArg args "query" with
  | some (GoVal.str s) => s
  | _ => ""

/-- Legacy limit extraction (types.go lines 278-281): start from 20 and
overwrite with `int(l)` only when the value is present and is a number.
An explicitly supplied 0 therefore stays 0. -/
def legacyLimitArg (args : List (String × GoVal)) : Int :=
  match lookupArg args "limit" with
  | some (GoVal.num l) => l
  | _ => 20

/-- The Client call issued by the legacy `handleSearchBookmarks`
(types.go line 283): `GetBookmarks(ctx, limit, 0, query)`. -/
def legacyGetBookmarksCall (args : List (String × GoVal)) : Server.GetBookmarksCall :=
  ⟨legacyLimitArg args, 0, legacyQueryArg args⟩

/-- Legacy `handleSearchBookmarks` (types.go lines 276-324) after the
Client call: same error text and list rendering as the SDK handler
(the loop at lines 300-310 is textually identical to server.go lines
50-63), wrapped in a JSON-RPC response with no protocol error. -/
def legacyHandleSearchBookmarks (id : GoVal) (args : List (String × GoVal))
    (clientResult : Except String BookmarkResponse) : MCPResponse :=
  match clientResult with
  | .error e =>
    { jsonrpc := "2.0", id := id
      result := some (MCPPayload.toolCall
        ⟨[⟨"text", "Failed to search bookmarks: " ++ e⟩], true⟩)
      error := none }
  | .ok resp =>
    { jsonrpc := "2.0", id := id
      result := some (MCPPayload.toolCall
        ⟨[⟨"text", Server.formatBookmarks resp.results⟩], false⟩)
      error := none }

/-- Legacy URL extraction (types.go line 327):
`url, ok := args["url"].(string)` — `none` when absent or not a string. -/
def legacyUrlArg (args : List (String × GoVal)) : Option String :=
  match lookupArg args "url" with
  | some (GoVal.str s) => some s
  | _ => none

/-- Whether the legacy `handleCreateBookmark` rejects the call before any
Client interaction (types.go line 328: `!ok || url == ""`). -/
def legacyUrlMissing (args : List (String × GoVal)) : Bool :=
  match legacyUrlArg args with
  | none => true
  | some url => url = ""

/-- The `CreateBookmarkRequest` built by the legacy handler (types.go
lines 344-362): title/description only when present as strings, tags
collecting the string elements of a present array. -/
def legacyCreateReq (args : List (String × GoVal)) (url : String) : CreateBookmarkRequest :=
  { url := url
    title := match lookupArg args "title" with
      | some (GoVal.str s) => s
      | _ => ""
    description := match lookupArg args "description" with
      | some (GoVal.str s) => s
      | _ => ""
    notes := ""
    tagNames := match lookupArg args "tags" with
      | some (GoVal.arr xs) =>
        xs.filterMap (fun v => match v with | GoVal.str s => some s | _ => none)
      | _ => []
    unread := false, shared := false, isArchived := false, disableScraping := false }

/-- The Client call issued by the legacy `handleCreateBookmark`: `none`
when the URL check fails (the handler returns first), otherwise the
request of types.go line 364. -/
def legacyCreateBookmarkClientCall (args : List (String × GoVal)) : Option CreateBookmarkRequest :=
  match legacyUrlArg args with
  | none => none
  | some url => if url = "" then none else some (legacyCreateReq args url)

/-- Legacy `handleCreateBookmark` (types.go lines 326-402): URL check,
then the Client call, then the same confirmation text as the SDK handler
(lines 381-388 are textually identical to server.go lines 105-114); the
legacy adapter has no structured payload. -/
def legacyHandleCreateBookmark (id : GoVal) (args : List (String × GoVal))
    (clientResult : Except String Bookmark) : MCPResponse :=
  match legacyUrlArg args with
  | none =>
    { jsonrpc := "2.0", id := id
      result := some (MCPPayload.toolCall ⟨[⟨"text", "URL is required"⟩], true⟩)
      error := none }
  | some url =>
    if url = "" then
      { jsonrpc := "2.0", id := id
        result := some (MCPPayload.toolCall ⟨[⟨"text", "URL is required"⟩], true⟩)
        error := none }
    else
      match clientResult with
      | .error e =>
        { jsonrpc := "2.0", id := id
          result := some (MCPPayload.toolCall
            ⟨[⟨"text", "Failed to create bookmark: " ++ e⟩], true⟩)
          error := none }
      | .ok b =>
        { jsonrpc := "2.0", id := id
          result := some (MCPPayload.toolCall
            ⟨[⟨"text", Server.createBookmarkText b⟩], false⟩)
          error := none }

/-- Any Client operation the legacy dispatcher can trigger. -/
inductive ClientOp where
  | getBookmarks (c : Server.GetBookmarksCall)
  | createBookmark (r : CreateBookmarkRequest)

/-- The Client operation (if any) triggered by the legacy
`handleToolsCall` switch (types.go lines 259-273): only the two wired
tool names can reach the Client; every other name — `get_tags`
included — falls to the default branch without any Client interaction. -/
def legacyDispatchClientOp (params : ToolCallParams) : Option ClientOp :=
  if params.name = "search_bookmarks" then
    some (ClientOp.getBookmarks (legacyGetBookmarksCall params.arguments))
  else if params.name = "create_bookmark" then
    (legacyCreateBookmarkClientCall params.arguments).map ClientOp.createBookmark
  else none

/-- Legacy `handleToolsCall` (types.go lines 234-274) after successful
params decoding: the switch routes `search_bookmarks` and
`create_bookmark` to their handlers and answers every other name with
the protocol error -32601 "Tool not found".  The outcomes of the two
possible Client calls are passed explicitly. -/
def legacyHandleToolsCall (id : GoVal) (params : ToolCallParams)
    (searchResult : Except String BookmarkResponse)
    (createResult : Except String Bookmark) : MCPResponse :=
  if params.name = "search_bookmarks" then
    legacyHandleSearchBookmarks id params.arguments searchResult
  else if params.name = "create_bookmark" then
    legacyHandleCreateBookmark id params.arguments createResult
  else
    { jsonrpc := "2.0", id := id, result := none
      error := some ⟨-32601, "Tool not found"⟩ }

end MCP

/-- Concatenation, in order, of the rendering of each list element; used
to state the list-formatting properties of the handlers. -/
def joinMap {α : Type} (f : α → String) : List α → String
  | [] => ""
  | x :: xs => f x ++ joinMap f xs

theorem foldl_append_joinMap {α : Type} (f : α → String) (l : List α) :
    ∀ init : String, l.foldl (fun acc x => acc ++ f x) init = init ++ joinMap f l := by
  induction l with
  | nil =>
    intro init
    simp [joinMap, String.append_empty]
  | cons x xs ih =>
    intro init
    simp only [List.foldl, joinMap]
    rw [ih, String.append_assoc]

theorem bookmarkBlock_by_emptiness (b : Linkding.Bookmark) :
    Server.bookmarkBlock b
      = "• **" ++ b.title ++ "**\n  URL: " ++ b.url ++ "\n"
        ++ (if b.description = "" then "" else "  Description: " ++ b.description ++ "\n")
        ++ (if b.tagNames = [] then "" else "  Tags: " ++ Server.goStringSliceV b.tagNames ++ "\n")
        ++ "\n" := by
  unfold Server.bookmarkBlock
  by_cases hd : b.description = "" <;> by_cases ht : b.tagNames = [] <;>
    simp [hd, ht, List.length_pos]

theorem joinMap_congr {α : Type} {f g : α → String} (hfg : ∀ a, f a = g a) :
    ∀ l : List α, joinMap f l = joinMap g l := by
  intro l
  induction l with
  | nil => rfl
  | cons x xs ih => simp [joinMap, hfg x, ih]

/-- Claim C1 (counterexample): the legacy tools/list response lists only
search_bookmarks and create_bookmark — it has no descriptor for get_tags,
so not every tools/list response of this repository lists one. -/
theorem legacy_tools_list_omits_get_tags :
    MCP.legacyHandleToolsList MCP.GoVal.nullv
        = ⟨"2.0", MCP.GoVal.nullv, some (MCP.MCPPayload.toolsList MCP.legacyTools), none⟩
      ∧ MCP.legacyTools.map MCP.ToolDescriptor.name = ["search_bookmarks", "create_bookmark"]
      ∧ "get_tags" ∉ MCP.legacyTools.map MCP.ToolDescriptor.name :=
  ⟨rfl, rfl, by decide⟩

/-- Claim C1 (amended): the SDK server built by NewMCP registers exactly
the three tools search_bookmarks, create_bookmark and get_tags at
startup, while the legacy hand-rolled tools/list response carries exactly
the two descriptors search_bookmarks and create_bookmark. -/
theorem tool_catalogs_of_both_servers :
    Server.newMCPTools.map Prod.fst = ["search_bookmarks", "create_bookmark", "get_tags"]
      ∧ MCP.legacyTools.map MCP.ToolDescriptor.name = ["search_bookmarks", "create_bookmark"] :=
  ⟨rfl, rfl⟩

/-- Claim C2 (counterexample): get_tags is one of the three catalog
names, yet the legacy dispatcher answers it with the protocol error
-32601 "Tool not found" and triggers no Client operation. -/
theorem legacy_dispatch_get_tags_not_found :
    "get_tags" ∈ Server.newMCPTools.map Prod.fst
      ∧ MCP.legacyHandleToolsCall MCP.GoVal.nullv ⟨"get_tags", []⟩ (.error "") (.error "")
          = ⟨"2.0", MCP.GoVal.nullv, none, some ⟨-32601, "Tool not found"⟩⟩
      ∧ MCP.legacyDispatchClientOp ⟨"get_tags", []⟩ = none :=
  ⟨by decide, rfl, rfl⟩

/-- Claim C2 (amended): the legacy dispatcher routes search_bookmarks and
create_bookmark invocations to their handlers; every other tool name —
get_tags included — yields the protocol error -32601 and no Client
operation is invoked. -/
theorem legacy_dispatch_routes_and_rejects (id : MCP.GoVal)
    (args : List (String × MCP.GoVal))
    (s : Except String Linkding.BookmarkResponse) (c : Except String Linkding.Bookmark) :
    MCP.legacyHandleToolsCall id ⟨"search_bookmarks", args⟩ s c
        = MCP.legacyHandleSearchBookmarks id args s
      ∧ MCP.legacyHandleToolsCall id ⟨"create_bookmark", args⟩ s c
          = MCP.legacyHandleCreateBookmark id args c
      ∧ ∀ name : String, name ≠ "search_bookmarks" → name ≠ "create_bookmark" →
          MCP.legacyHandleToolsCall id ⟨name, args⟩ s c
              = ⟨"2.0", id, none, some ⟨-32601, "Tool not found"⟩⟩
            ∧ MCP.legacyDispatchClientOp ⟨name, args⟩ = none := by
  refine ⟨rfl, rfl, ?_⟩
  intro name h1 h2
  constructor
  · simp [MCP.legacyHandleToolsCall, h1, h2]
  · simp [MCP.legacyDispatchClientOp, h1, h2]

theorem legacy_dispatch_routes_and_rejects_witness :
    MCP.legacyHandleToolsCall MCP.GoVal.nullv ⟨"unknown_tool", []⟩ (.error "e") (.error "e")
        = ⟨"2.0", MCP.GoVal.nullv, none, some ⟨-32601, "Tool not found"⟩⟩
      ∧ MCP.legacyDispatchClientOp ⟨"unknown_tool", []⟩ = none :=
  (legacy_dispatch_routes_and_rejects MCP.GoVal.nullv [] (.error "e") (.error "e")).2.2
    "unknown_tool" (by decide) (by decide)

/-- Claim C3 (counterexample): a search_bookmarks invocation of the
legacy handler with the limit argument explicitly supplied as 0 calls the
Client with limit 0, not 20 — the legacy default applies only when the
limit argument is absent or not a number. -/
theorem legacy_search_explicit_zero_limit_passthrough :
    (MCP.legacyGetBookmarksCall [("limit", MCP.GoVal.num 0)]).limit = 0
      ∧ (MCP.legacyGetBookmarksCall [("limit", MCP.GoVal.num 0)]).limit ≠ 20 :=
  ⟨rfl, by decide⟩

/-- Claim C3 (amended): in the SDK handlers an omitted-or-zero limit is
replaced by 20 (search_bookmarks) or 50 (get_tags) in the Client call and
any non-zero limit is passed through unchanged; in the legacy
search_bookmarks handler the default 20 is used only when the limit
argument is absent (or not a number), and every numerically supplied
limit — zero included — is passed to the Client unchanged. -/
theorem limit_default_policy (q : String) (l : Int) (args : List (String × MCP.GoVal)) :
    (l = 0 → (Server.searchBookmarksClientCall ⟨q, l⟩).limit = 20
        ∧ (Server.getTagsClientCall ⟨l⟩).limit = 50)
      ∧ (l ≠ 0 → (Server.searchBookmarksClientCall ⟨q, l⟩).limit = l
        ∧ (Server.getTagsClientCall ⟨l⟩).limit = l)
      ∧ (MCP.lookupArg args "limit" = none → (MCP.legacyGetBookmarksCall args).limit = 20)
      ∧ (∀ n : Int, MCP.lookupArg args "limit" = some (MCP.GoVal.num n) →
          (MCP.legacyGetBookmarksCall args).limit = n) := by
  refine ⟨?_, ?_, ?_, ?_⟩
  · intro h
    constructor <;>
      simp [Server.searchBookmarksClientCall, Server.getTagsClientCall,
        Server.searchEffectiveLimit, Server.tagsEffectiveLimit, h]
  · intro h
    constructor <;>
      simp [Server.searchBookmarksClientCall, Server.getTagsClientCall,
        Server.searchEffectiveLimit, Server.tagsEffectiveLimit, h]
  · intro h
    show MCP.legacyLimitArg args = 20
    unfold MCP.legacyLimitArg
    rw [h]
  · intro n h
    show MCP.legacyLimitArg args = n
    unfold MCP.legacyLimitArg
    rw [h]

/-- Claim C4 (confirmed): every Client read returning a status other
than OK (and CreateBookmark a status other than Created) is a terminal
error carrying the numeric status code; transport and decode failures are
also terminal errors; and every Client error reaches the caller as a
successful protocol exchange whose isError flag is set and whose text is
the operation name followed by the error detail — never as a numeric
protocol error code (the legacy response carries error = none). -/
theorem client_error_surfacing :
    (∀ (status : Int) (body : Except String Linkding.BookmarkResponse), status ≠ 200 →
        Linkding.GetBookmarks (.httpResponse status body)
          = .error ("API request failed with status " ++ toString status))
      ∧ (∀ (status : Int) (body : Except String Linkding.TagResponse), status ≠ 200 →
          Linkding.GetTags (.httpResponse status body)
            = .error ("API request failed with status " ++ toString status))
      ∧ (∀ (status : Int) (body : Except String Linkding.Bookmark), status ≠ 201 →
          Linkding.CreateBookmark (.httpResponse status body)
            = .error ("API request failed with status " ++ toString status))
      ∧ (∀ m : String, Linkding.GetBookmarks (.transportFailure m) = .error m)
      ∧ (∀ m : String, Linkding.GetBookmarks (.httpResponse 200 (.error m))
          = .error ("failed to decode response: " ++ m))
      ∧ (∀ (args : Server.SearchBookmarksArgs) (e : String),
          Server.handleSearchBookmarks args (.error e)
            = ⟨[⟨"Failed to search bookmarks: " ++ e⟩], true⟩)
      ∧ (∀ (args : Server.GetTagsArgs) (e : String),
          Server.handleGetTags args (.error e) = ⟨[⟨"Failed to get tags: " ++ e⟩], true⟩)
      ∧ (∀ (args : Server.CreateBookmarkArgs) (e : String), args.url ≠ "" →
          Server.handleCreateBookmark args (.error e)
            = (⟨[⟨"Failed to create bookmark: " ++ e⟩], true⟩, Server.emptyBookmarkResult))
      ∧ (∀ (id : MCP.GoVal) (args : List (String × MCP.GoVal)) (e : String),
          (MCP.legacyHandleSearchBookmarks id args (.error e)).error = none
            ∧ (MCP.legacyHandleSearchBookmarks id args (.error e)).result
                = some (MCP.MCPPayload.toolCall
                    ⟨[⟨"text", "Failed to search bookmarks: " ++ e⟩], true⟩)) := by
  refine ⟨?_, ?_, ?_, ?_, ?_, ?_, ?_, ?_, ?_⟩
  · intro status body h
    simp [Linkding.GetBookmarks, h]
  · intro status body h
    simp [Linkding.GetTags, h]
  · intro status body h
    simp [Linkding.CreateBookmark, h]
  · intro m
    rfl
  · intro m
    rfl
  · intro args e
    rfl
  · intro args e
    rfl
  · intro args e h
    simp [Server.handleCreateBookmark, h]
  · intro id args e
    exact ⟨rfl, rfl⟩

theorem client_error_surfacing_witness :
    Linkding.GetBookmarks (.httpResponse 404 (.ok ⟨0, none, none, []⟩))
        = .error "API request failed with status 404"
      ∧ Linkding.GetTags (.httpResponse 500 (.ok ⟨0, none, none, []⟩))
          = .error "API request failed with status 500"
      ∧ Linkding.CreateBookmark (.httpResponse 400
            (.ok ⟨1, "u", "t", "", "", "", "", "", false, false, false, [], "", ""⟩))
          = .error "API request failed with status 400"
      ∧ Server.handleCreateBookmark ⟨"https://x.test", "", "", []⟩ (.error "boom")
          = (⟨[⟨"Failed to create bookmark: boom"⟩], true⟩, Server.emptyBookmarkResult) := by
  refine ⟨?_, ?_, ?_, ?_⟩
  · have h := client_error_surfacing.1 404 (.ok ⟨0, none, none, []⟩) (by decide)
    rw [h]
    rfl
  · have h := client_error_surfacing.2.1 500 (.ok ⟨0, none, none, []⟩) (by decide)
    rw [h]
    rfl
  · have h := client_error_surfacing.2.2.1 400
      (.ok ⟨1, "u", "t", "", "", "", "", "", false, false, false, [], "", ""⟩) (by decide)
    rw [h]
    rfl
  · have h := client_error_surfacing.2.2.2.2.2.2.2.1 ⟨"https://x.test", "", "", []⟩ "boom"
      (by decide)
    rw [h]
    rfl

/-- Claim C5 (confirmed): a create_bookmark invocation whose url is empty
or absent produces the business-error result with text exactly
"URL is required" and never reaches the Client's createBookmark, in both
the SDK handler (empty url string) and the legacy handler (url absent,
not a string, or empty). -/
theorem create_bookmark_requires_url
    (args : Server.CreateBookmarkArgs) (cr : Except String Linkding.Bookmark)
    (h : args.url = "")
    (id : MCP.GoVal) (largs : List (String × MCP.GoVal))
    (lcr : Except String Linkding.Bookmark)
    (hl : MCP.legacyUrlMissing largs = true) :
    Server.handleCreateBookmark args cr
        = (⟨[⟨"URL is required"⟩], true⟩, Server.emptyBookmarkResult)
      ∧ Server.createBookmarkClientCall args = none
      ∧ (MCP.legacyHandleCreateBookmark id largs lcr).result
          = some (MCP.MCPPayload.toolCall ⟨[⟨"text", "URL is required"⟩], true⟩)
      ∧ (MCP.legacyHandleCreateBookmark id largs lcr).error = none
      ∧ MCP.legacyCreateBookmarkClientCall largs = none := by
  have legacyCase :
      (MCP.legacyHandleCreateBookmark id largs lcr).result
          = some (MCP.MCPPayload.toolCall ⟨[⟨"text", "URL is required"⟩], true⟩)
        ∧ (MCP.legacyHandleCreateBookmark id largs lcr).error = none
        ∧ MCP.legacyCreateBookmarkClientCall largs = none := by
    unfold MCP.legacyUrlMissing at hl
    unfold MCP.legacyHandleCreateBookmark MCP.legacyCreateBookmarkClientCall
    cases hu : MCP.legacyUrlArg largs with
    | none => exact ⟨rfl, rfl, rfl⟩
    | some url =>
      rw [hu] at hl
      have hurl : url = "" := by
        simpa using hl
      subst hurl
      exact ⟨rfl, rfl, rfl⟩
  refine ⟨?_, ?_, legacyCase.1, legacyCase.2.1, legacyCase.2.2⟩
  · simp [Server.handleCreateBookmark, h]
  · simp [Server.createBookmarkClientCall, h]

theorem create_bookmark_requires_url_witness :
    Server.handleCreateBookmark ⟨"", "a title", "", ["t"]⟩ (.error "unused")
        = (⟨[⟨"URL is required"⟩], true⟩, Server.emptyBookmarkResult)
      ∧ Server.createBookmarkClientCall ⟨"", "a title", "", ["t"]⟩ = none
      ∧ (MCP.legacyHandleCreateBookmark MCP.GoVal.nullv [] (.error "unused")).result
          = some (MCP.MCPPayload.toolCall ⟨[⟨"text", "URL is required"⟩], true⟩)
      ∧ (MCP.legacyHandleCreateBookmark MCP.GoVal.nullv [] (.error "unused")).error = none
      ∧ MCP.legacyCreateBookmarkClientCall [] = none :=
  create_bookmark_requires_url ⟨"", "a title", "", ["t"]⟩ (.error "unused") rfl
    MCP.GoVal.nullv [] (.error "unused") rfl

/-- Claim C6 (confirmed): the search_bookmarks result text is the header
"Found <N> bookmarks:\n\n" followed by one block per bookmark in the
Client's order — title/URL lines, a Description line only when the
description is non-empty, a Tags line only when the tag list is
non-empty, then a blank line — and the empty list renders exactly
"Found 0 bookmarks:\n\n". -/
theorem search_bookmarks_text_rendering (bs : List Linkding.Bookmark) :
    Server.formatBookmarks bs
        = "Found " ++ toString bs.length ++ " bookmarks:\n\n"
          ++ joinMap (fun b =>
              "• **" ++ b.title ++ "**\n  URL: " ++ b.url ++ "\n"
                ++ (if b.description = "" then ""
                    else "  Description: " ++ b.description ++ "\n")
                ++ (if b.tagNames = [] then ""
                    else "  Tags: " ++ Server.goStringSliceV b.tagNames ++ "\n")
                ++ "\n") bs
      ∧ Server.formatBookmarks [] = "Found 0 bookmarks:\n\n" := by
  constructor
  · unfold Server.formatBookmarks
    rw [foldl_append_joinMap Server.bookmarkBlock bs]
    rw [joinMap_congr bookmarkBlock_by_emptiness bs]
  · rfl

/-- Claim C7 (confirmed): a get_tags invocation whose Client returns an
empty tag list yields the literal text "No tags found", and a non-empty
list yields "Found <N> tags:\n\n" followed by one line
"• <name> (ID: <id>)\n" per tag in the Client's order. -/
theorem get_tags_text_rendering (args : Server.GetTagsArgs) (resp : Linkding.TagResponse) :
    (resp.results = [] →
        Server.handleGetTags args (.ok resp) = ⟨[⟨"No tags found"⟩], false⟩)
      ∧ (resp.results ≠ [] →
        Server.handleGetTags args (.ok resp)
          = ⟨[⟨"Found " ++ toString resp.results.length ++ " tags:\n\n"
              ++ joinMap (fun t => "• " ++ t.name ++ " (ID: " ++ toString t.id ++ ")\n")
                  resp.results⟩], false⟩) := by
  constructor
  · intro h
    simp [Server.handleGetTags, h]
  · intro h
    have hlen : ¬ resp.results.length = 0 := by
      simpa using h
    simp only [Server.handleGetTags]
    rw [if_neg hlen]
    unfold Server.formatTags
    rw [foldl_append_joinMap
      (fun t : Linkding.Tag => "• " ++ t.name ++ " (ID: " ++ toString t.id ++ ")\n")
      resp.results]

theorem get_tags_text_rendering_witness :
    Server.handleGetTags ⟨0⟩ (.ok ⟨0, none, none, []⟩) = ⟨[⟨"No tags found"⟩], false⟩
      ∧ Server.handleGetTags ⟨0⟩ (.ok ⟨1, none, none, [⟨3, "dev", ""⟩]⟩)
          = ⟨[⟨"Found 1 tags:\n\n• dev (ID: 3)\n"⟩], false⟩ := by
  constructor
  · exact (get_tags_text_rendering ⟨0⟩ ⟨0, none, none, []⟩).1 rfl
  · have h := (get_tags_text_rendering ⟨0⟩ ⟨1, none, none, [⟨3, "dev", ""⟩]⟩).2 (by decide)
    rw [h]
    rfl

/-- Claim C8 (confirmed): when the Client returns a created bookmark, the
structured result mirrors it (id, url, title, description, tags) with
success true and message "Bookmark created successfully", and the text is
the banner "✅ Bookmark created successfully!" followed by the
title/URL/ID block and the optional description/tags lines, with nothing
appended after them (no trailing blank line). -/
theorem create_bookmark_success_result
    (args : Server.CreateBookmarkArgs) (b : Linkding.Bookmark) (h : args.url ≠ "") :
    Server.handleCreateBookmark args (.ok b)
        = (⟨[⟨Server.createBookmarkText b⟩], false⟩,
            ⟨b.id, b.url, b.title, b.description, b.tagNames, true,
              "Bookmark created successfully"⟩)
      ∧ Server.createBookmarkText b
          = "✅ Bookmark created successfully!\n\n• **" ++ b.title ++ "**\n  URL: " ++ b.url
              ++ "\n  ID: " ++ toString b.id
            ++ (if b.description = "" then "" else "\n  Description: " ++ b.description)
            ++ (if b.tagNames = [] then "" else "\n  Tags: " ++ Server.goStringSliceV b.tagNames)
      ∧ (∃ rest : String,
          Server.createBookmarkText b = "✅ Bookmark created successfully!" ++ rest) := by
  refine ⟨?_, ?_, ?_⟩
  · simp [Server.handleCreateBookmark, h]
  · unfold Server.createBookmarkText
    by_cases hd : b.description = "" <;> by_cases ht : b.tagNames = [] <;>
      simp [hd, ht, List.length_pos]
  · refine ⟨"\n\n• **" ++ b.title ++ "**\n  URL: " ++ b.url ++ "\n  ID: " ++ toString b.id
      ++ (if b.description ≠ "" then "\n  Description: " ++ b.description else "")
      ++ (if b.tagNames.length > 0 then "\n  Tags: " ++ Server.goStringSliceV b.tagNames
          else ""), ?_⟩
    unfold Server.createBookmarkText
    rw [show ("✅ Bookmark created successfully!\n\n• **" : String)
        = "✅ Bookmark created successfully!" ++ "\n\n• **" from rfl]
    simp only [String.append_assoc]

theorem create_bookmark_success_result_witness :
    Server.handleCreateBookmark ⟨"https://x.test", "", "", []⟩
        (.ok ⟨7, "https://x.test", "", "", "", "", "", "", false, false, false, [], "", ""⟩)
        = (⟨[⟨"✅ Bookmark created successfully!\n\n• ****\n  URL: https://x.test\n  ID: 7"⟩],
              false⟩,
            ⟨7, "https://x.test", "", "", [], true, "Bookmark created successfully"⟩) := by
  have h := (create_bookmark_success_result ⟨"https://x.test", "", "", []⟩
      ⟨7, "https://x.test", "", "", "", "", "", "", false, false, false, [], "", ""⟩
      (by decide)).1
  rw [h]
  rfl

/-- Claim C9 (confirmed): a strictly negative limit is not replaced by
any default (defaults fire only at 0) and the Client then omits the limit
query parameter entirely — it is sent exactly when the limit is strictly
positive. -/
theorem negative_limit_passthrough (l : Int) (hl : l < 0) (q : String) :
    Server.searchEffectiveLimit l = l
      ∧ Server.tagsEffectiveLimit l = l
      ∧ (Linkding.getBookmarksParams l 0 q).lookup "limit" = none
      ∧ (Linkding.getTagsParams l 0).lookup "limit" = none
      ∧ (∀ l0 : Int, "limit" ∈ (Linkding.getBookmarksParams l0 0 q).map Prod.fst ↔ 0 < l0) := by
  have hne : l ≠ 0 := by omega
  have hng : ¬ l > 0 := by omega
  refine ⟨?_, ?_, ?_, ?_, ?_⟩
  · simp [Server.searchEffectiveLimit, hne]
  · simp [Server.tagsEffectiveLimit, hne]
  · unfold Linkding.getBookmarksParams
    rw [if_neg hng, if_neg (by omega : ¬ (0 : Int) > 0)]
    by_cases hq : q = ""
    · simp [hq]
    · simp only [List.nil_append]
      rw [if_pos hq]
      rfl
  · unfold Linkding.getTagsParams
    rw [if_neg hng, if_neg (by omega : ¬ (0 : Int) > 0)]
    rfl
  · intro l0
    unfold Linkding.getBookmarksParams
    by_cases h0 : l0 > 0 <;> by_cases hq : q = "" <;>
      simp [h0, hq]

theorem negative_limit_passthrough_witness :
    Server.searchEffectiveLimit (-1) = -1
      ∧ Server.tagsEffectiveLimit (-1) = -1
      ∧ (Linkding.getBookmarksParams (-1) 0 "").lookup "limit" = none
      ∧ (Linkding.getTagsParams (-1) 0).lookup "limit" = none :=
  let h := negative_limit_passthrough (-1) (by decide) ""
  ⟨h.1, h.2.1, h.2.2.1, h.2.2.2.1⟩

/-- Claim C10 (confirmed): a non-empty tag-name list renders, in both the
search block and the creation summary, as the names joined by single
spaces inside square brackets — Go's default slice formatting — and in
particular ["dev", "tools"] renders as "[dev tools]", not
comma-separated. -/
theorem tags_line_go_slice_format (b : Linkding.Bookmark) (h : b.tagNames ≠ []) :
    (∃ before after : String,
        Server.bookmarkBlock b
          = before
            ++ ("  Tags: " ++ ("[" ++ String.intercalate " " b.tagNames ++ "]") ++ "\n")
            ++ after)
      ∧ (∃ before2 : String,
        Server.createBookmarkText b
          = before2
            ++ ("\n  Tags: " ++ ("[" ++ String.intercalate " " b.tagNames ++ "]")))
      ∧ Server.goStringSliceV ["dev", "tools"] = "[dev tools]"
      ∧ Server.goStringSliceV ["dev", "tools"] ≠ "[dev, tools]" := by
  have hlen : b.tagNames.length > 0 := List.length_pos.mpr h
  refine ⟨?_, ?_, by decide, by decide⟩
  · refine ⟨"• **" ++ b.title ++ "**\n  URL: " ++ b.url ++ "\n"
      ++ (if b.description ≠ "" then "  Description: " ++ b.description ++ "\n" else ""),
      "\n", ?_⟩
    unfold Server.bookmarkBlock Server.goStringSliceV
    rw [if_pos hlen]
  · refine ⟨"✅ Bookmark created successfully!\n\n• **" ++ b.title ++ "**\n  URL: " ++ b.url
      ++ "\n  ID: " ++ toString b.id
      ++ (if b.description ≠ "" then "\n  Description: " ++ b.description else ""), ?_⟩
    unfold Server.createBookmarkText Server.goStringSliceV
    rw [if_pos hlen]

theorem tags_line_go_slice_format_witness :
    (∃ before after : String,
        Server.bookmarkBlock
            ⟨1, "https://e", "T", "", "", "", "", "", false, false, false,
              ["dev", "tools"], "", ""⟩
          = before ++ ("  Tags: " ++ ("[" ++ String.intercalate " " ["dev", "tools"] ++ "]")
              ++ "\n") ++ after)
      ∧ Server.goStringSliceV ["dev", "tools"] = "[dev tools]" :=
  ⟨(tags_line_go_slice_format
      ⟨1, "https://e", "T", "", "", "", "", "", false, false, false, ["dev", "tools"], "", ""⟩
      (by decide)).1,
    (tags_line_go_slice_format
      ⟨1, "https://e", "T", "", "", "", "", "", false, false, false, ["dev", "tools"], "", ""⟩
      (by decide)).2.2.1⟩

theorem limit_default_policy_witness :
    ((Server.searchBookmarksClientCall ⟨"", 0⟩).limit = 20
        ∧ (Server.getTagsClientCall ⟨0⟩).limit = 50)
      ∧ ((Server.searchBookmarksClientCall ⟨"", 7⟩).limit = 7
        ∧ (Server.getTagsClientCall ⟨7⟩).limit = 7)
      ∧ (MCP.legacyGetBookmarksCall []).limit = 20
      ∧ (MCP.legacyGetBookmarksCall [("limit", MCP.GoVal.num 5)]).limit = 5 :=
  ⟨(limit_default_policy "" 0 []).1 rfl,
    (limit_default_policy "" 7 []).2.1 (by decide),
    (limit_default_policy "" 0 []).2.2.1 rfl,
    (limit_default_policy "" 0 [("limit", MCP.GoVal.num 5)]).2.2.2 5 rfl⟩

